import Mathlib

/-!
Verification of the statement-container layer (`StatementedNode.ts`).

The development shallowly embeds the statement-container abstraction of
`src/src/compiler/ast/statement/StatementedNode.ts`: a container node holding
an ordered list of statements, with kind-filtered views, name/predicate
lookup, positional insertion, range removal, and the bulk `set` reconciler.

Statements are modelled by the observable attributes the container layer
consults: syntactic kind, optional declared name, the ambient classifier
(`isNodeAmbientOrInAmbientContext` / `hasDeclareKeyword`), and body presence.
Text synthesis, node wrapping, and the splice primitive are boundary
collaborators of the source file; where their code is not part of the sources
the corresponding definition is marked `Modelled from the spec:`.
-/

namespace StatementedNode

/-- Syntactic kinds the container layer distinguishes
(`SyntaxKind.ClassDeclaration`, `EnumDeclaration`, `FunctionDeclaration`,
`InterfaceDeclaration`, `ModuleDeclaration`, `TypeAliasDeclaration`,
`VariableStatement`, plus a catch-all for any other statement). -/
inductive StmtKind where
  | classDecl
  | enumDecl
  | functionDecl
  | interfaceDecl
  | namespaceDecl
  | typeAliasDecl
  | variableStmt
  | other
  deriving DecidableEq, Repr

/-- A statement node as observed by the container layer: its syntactic kind,
optional declared name, the ambient classifier, and whether it has a body
(boundary classifiers of spec section 6: `kindOf`,
`isAmbientOrInAmbientContext`, `hasBody`). -/
structure Stmt where
  kind : StmtKind
  name : Option String
  isAmbient : Bool
  hasBody : Bool
  deriving DecidableEq, Repr

/-- A declaration structure handed to `insertK*`: the fields the container
layer itself reads (`hasDeclareKeyword` on the first/last structure for the
function spacing rule; name and body presence for the synthesized node). -/
structure DeclStructure where
  name : Option String
  hasDeclareKeyword : Bool := false
  hasBody : Bool := false
  deriving DecidableEq, Repr

/-- The container shapes dispatched over in `getCompilerStatements`:
self-bodied nodes (source file, case/default clause, block) own their
statement list; bodyable nodes may lack a body; bodied nodes always have
one. -/
inductive Container where
  | selfBodied (stmts : List Stmt)
  | bodyable (body : Option (List Stmt))
  | bodied (stmts : List Stmt)
  deriving DecidableEq, Repr

/-- Error taxonomy of the container layer (spec section 7), with `NotFound`
carrying the entity-kind tag the message is generated from. -/
inductive ContainerError where
  | outOfBounds
  | notFound (kind : StmtKind)
  deriving DecidableEq, Repr

/-- Embeds `getCompilerStatements` (source lines 913-933): source files and
case/default clauses expose their own statement list; a bodyable node
without a body yields the empty list; bodied nodes expose the body's
statements. -/
def getCompilerStatements : Container → List Stmt
  | .selfBodied stmts => stmts
  | .bodyable none => []
  | .bodyable (some b) => b
  | .bodied stmts => stmts

/-- Embeds `getStatements` (source line 432): the compiler statements wrapped into
typed nodes; the wrapping is the identity at this level of abstraction. -/
def getStatements (c : Container) : List Stmt :=
  getCompilerStatements c

/-- Embeds `addBodyIfNotExists` (source lines 969-972): create an empty body on a
bodyable node that lacks one; all other containers are untouched. -/
def addBodyIfNotExists : Container → Container
  | .bodyable none => .bodyable (some [])
  | c => c

/-- Replace a container's statement list; a bodyable node keeps (or gains)
its body. Models the post-splice tree in which the statement span was
rewritten. -/
def withStatements : Container → List Stmt → Container
  | .selfBodied _, l => .selfBodied l
  | .bodyable _, l => .bodyable (some l)
  | .bodied _, l => .bodied l

/-- The test `TypeGuards.isBodiedNode(this) || TypeGuards.isBodyableNode(this)` as
used by `set` (source lines 860, 899). -/
def isBodiedOrBodyable : Container → Bool
  | .selfBodied _ => false
  | .bodyable _ => true
  | .bodied _ => true

/-- The test `TypeGuards.isBodyableNode(this)` as used by `set` (source line 866). -/
def isBodyableShape : Container → Bool
  | .bodyable _ => true
  | _ => false

/-- Embeds `removeBody` on a bodyable node (source line 867). -/
def removeBody : Container → Container
  | .bodyable _ => .bodyable none
  | c => c

/-- Whether the container currently has a body (spec section 6 classifier
`hasBody`; self-bodied and bodied containers always do). -/
def hasBody : Container → Bool
  | .bodyable none => false
  | _ => true

theorem getCompilerStatements_withStatements (c : Container) (l : List Stmt) :
    getCompilerStatements (withStatements c l) = l := by
  cases c with
  | selfBodied s => rfl
  | bodyable b => rfl
  | bodied s => rfl

theorem withStatements_withStatements (c : Container) (l l' : List Stmt) :
    withStatements (withStatements c l) l' = withStatements c l' := by
  cases c with
  | selfBodied s => rfl
  | bodyable b => rfl
  | bodied s => rfl

theorem addBodyIfNotExists_withStatements (c : Container) (l : List Stmt) :
    addBodyIfNotExists (withStatements c l) = withStatements c l := by
  cases c with
  | selfBodied s => rfl
  | bodyable b => rfl
  | bodied s => rfl

theorem getCompilerStatements_addBodyIfNotExists (c : Container) :
    getCompilerStatements (addBodyIfNotExists c) = getCompilerStatements c := by
  cases c with
  | selfBodied s => rfl
  | bodyable b => cases b <;> rfl
  | bodied s => rfl

theorem isBodiedOrBodyable_withStatements (c : Container) (l : List Stmt) :
    isBodiedOrBodyable (withStatements c l) = isBodiedOrBodyable c := by
  cases c with
  | selfBodied s => rfl
  | bodyable b => rfl
  | bodied s => rfl

/-! ### Insertion engine -/

/-- Modelled from the spec: the positional splice performed by the
`insertIntoBracesOrSourceFileWithGetChildren` / `insertChildText`
manipulation primitives, which are not among the sources. Spec section 4.4:
the synthesized text is written at the insertion point so the inserted
declarations appear contiguously at the requested index, preserving all
other statements. -/
def spliceInsert (stmts : List Stmt) (index : Nat) (newStmts : List Stmt) : List Stmt :=
  stmts.take index ++ newStmts ++ stmts.drop index

/-- Embeds `_insertChildren` (source lines 935-946): ensure the body exists, then
hand the statements to the splice primitive at the validated index
(spec section 4.4: `OutOfBounds` when the index is invalid, checked before
any write; `index = count` means append). -/
def insertChildren (c : Container) (index : Nat) (newStmts : List Stmt) :
    Except ContainerError Container :=
  if index ≤ (getCompilerStatements (addBodyIfNotExists c)).length then
    .ok (withStatements (addBodyIfNotExists c)
      (spliceInsert (getCompilerStatements (addBodyIfNotExists c)) index newStmts))
  else
    .error .outOfBounds

/-- The statement node synthesized for one declaration structure of kind `k`
(boundary structure-printer of spec section 6: deterministic in the
structure; `hasDeclareKeyword` becomes the ambient flag of the printed
declaration). -/
def synthStmt (k : StmtKind) (s : DeclStructure) : Stmt :=
  { kind := k, name := s.name, isAmbient := s.hasDeclareKeyword, hasBody := s.hasBody }

/-- Generic `insertK*` for a declaration kind: synthesize the structures and splice
them in through `_insertChildren` (source: `insertClasses` lines 505-516 and
the analogous methods of every other kind). -/
def insertOfKind (c : Container) (k : StmtKind) (index : Nat)
    (structures : List DeclStructure) : Except ContainerError Container :=
  insertChildren c index (structures.map (synthStmt k))

/-- Generic `addK*` for a declaration kind: delegate to `insertK*` at the current
compiler-statement count (source: `addClasses` lines 497-499 and the
analogous methods of every other kind). -/
def addOfKind (c : Container) (k : StmtKind) (structures : List DeclStructure) :
    Except ContainerError Container :=
  insertOfKind c k (getCompilerStatements c).length structures

def insertClasses (c : Container) (index : Nat) (structures : List DeclStructure) :
    Except ContainerError Container :=
  insertOfKind c .classDecl index structures

def addClasses (c : Container) (structures : List DeclStructure) :
    Except ContainerError Container :=
  insertClasses c (getCompilerStatements c).length structures

def insertEnums (c : Container) (index : Nat) (structures : List DeclStructure) :
    Except ContainerError Container :=
  insertOfKind c .enumDecl index structures

def addEnums (c : Container) (structures : List DeclStructure) :
    Except ContainerError Container :=
  insertEnums c (getCompilerStatements c).length structures

def insertFunctions (c : Container) (index : Nat) (structures : List DeclStructure) :
    Except ContainerError Container :=
  insertOfKind c .functionDecl index structures

def addFunctions (c : Container) (structures : List DeclStructure) :
    Except ContainerError Container :=
  insertFunctions c (getCompilerStatements c).length structures

def insertInterfaces (c : Container) (index : Nat) (structures : List DeclStructure) :
    Except ContainerError Container :=
  insertOfKind c .interfaceDecl index structures

def addInterfaces (c : Container) (structures : List DeclStructure) :
    Except ContainerError Container :=
  insertInterfaces c (getCompilerStatements c).length structures

def insertNamespaces (c : Container) (index : Nat) (structures : List DeclStructure) :
    Except ContainerError Container :=
  insertOfKind c .namespaceDecl index structures

def addNamespaces (c : Container) (structures : List DeclStructure) :
    Except ContainerError Container :=
  insertNamespaces c (getCompilerStatements c).length structures

def insertTypeAliases (c : Container) (index : Nat) (structures : List DeclStructure) :
    Except ContainerError Container :=
  insertOfKind c .typeAliasDecl index structures

def addTypeAliases (c : Container) (structures : List DeclStructure) :
    Except ContainerError Container :=
  insertTypeAliases c (getCompilerStatements c).length structures

def insertVariableStatements (c : Container) (index : Nat) (structures : List DeclStructure) :
    Except ContainerError Container :=
  insertOfKind c .variableStmt index structures

def addVariableStatements (c : Container) (structures : List DeclStructure) :
    Except ContainerError Container :=
  insertVariableStatements c (getCompilerStatements c).length structures

/-- Embeds `insertStatements` (source lines 458-475): ensure the body exists, then
splice the parsed statements of the given text at the index. The text has
already been parsed into its statement nodes at this level of abstraction. -/
def insertStatements (c : Container) (index : Nat) (stmts : List Stmt) :
    Except ContainerError Container :=
  insertChildren c index stmts

/-- Embeds `addStatements` (source lines 454-456): `insertStatements` at the current
compiler-statement count. -/
def addStatements (c : Container) (stmts : List Stmt) :
    Except ContainerError Container :=
  insertStatements c (getCompilerStatements c).length stmts

/-! ### Removal engine -/

/-- Modelled from the spec: `errors.throwIfRangeOutOfRange`, which is not
among the sources. Spec section 4.1: `validateRange([start, end], [0, length])`
fails with `OutOfBounds` when either bound is out of `[0, length)` or
`start > end`. -/
def rangeOutOfRange (indexRange : Int × Int) (length : Nat) : Bool :=
  indexRange.1 > indexRange.2 ||
    indexRange.1 < 0 || indexRange.1 ≥ (length : Int) ||
    indexRange.2 < 0 || indexRange.2 ≥ (length : Int)

/-- Modelled from the spec: `removeStatementedNodeChildren`, which is not
among the sources. Spec section 4.5: deletes the contiguous span covering the
statements of the inclusive index range. -/
def removeRange (stmts : List Stmt) (start endIncl : Nat) : List Stmt :=
  stmts.take start ++ stmts.drop (endIncl + 1)

/-- Embeds `removeStatements` (source lines 482-489): validate the inclusive index
range against the current statement count before any mutation, then delete
the covered statements. -/
def removeStatements (c : Container) (indexRange : Int × Int) :
    Except ContainerError Container :=
  if rangeOutOfRange indexRange (getStatements c).length then
    .error .outOfBounds
  else
    .ok (withStatements c
      (removeRange (getStatements c) indexRange.1.toNat indexRange.2.toNat))

/-! ### Lookup engine and kind facades -/

/-- The string-or-callback lookup argument (spec design note: the variant
\x7bName(string), Predicate(fn)\x7d). -/
inductive NameOrPredicate where
  | name (s : String)
  | pred (p : Stmt → Bool)

/-- Whether a declaration matches a lookup argument: a string matches the
declared name (nameless declarations never match); a predicate is applied
directly. -/
def matchesNameOrFind (x : NameOrPredicate) (st : Stmt) : Bool :=
  match x with
  | .name n => decide (st.name = some n)
  | .pred p => p st

/-- Modelled from the spec: `getNodeByNameOrFindFunction` (utils), which is
not among the sources. Spec section 4.3: first item matching the name or
predicate, or absent. -/
def getNodeByNameOrFindFunction (items : List Stmt) (x : NameOrPredicate) : Option Stmt :=
  items.find? (matchesNameOrFind x)

/-- Embeds `getChildrenOfKind` on the child syntax list, as used by every `getKs`
(e.g. `getClasses`, source lines 518-523); a container without a body has no
children of any kind. -/
def getChildrenOfKind (c : Container) (k : StmtKind) : List Stmt :=
  (getCompilerStatements c).filter (fun st => decide (st.kind = k))

def getClasses (c : Container) : List Stmt :=
  getChildrenOfKind c .classDecl

def getEnums (c : Container) : List Stmt :=
  getChildrenOfKind c .enumDecl

/-- Embeds `getFunctions` (source lines 619-625): the direct function-declaration
children filtered to ambient-or-implementation. `isImplementation` is
modelled from the spec (section 3: an implementation has a body); the method
itself is not among the sources. -/
def getFunctions (c : Container) : List Stmt :=
  (getChildrenOfKind c .functionDecl).filter (fun f => f.isAmbient || f.hasBody)

def getInterfaces (c : Container) : List Stmt :=
  getChildrenOfKind c .interfaceDecl

def getNamespaces (c : Container) : List Stmt :=
  getChildrenOfKind c .namespaceDecl

def getTypeAliases (c : Container) : List Stmt :=
  getChildrenOfKind c .typeAliasDecl

def getVariableStatements (c : Container) : List Stmt :=
  getChildrenOfKind c .variableStmt

/-- The view each kind facade searches: `getKs()` for the kind, which for
functions is the ambient-or-implementation subset (source lines 619-625). -/
def declarationsOfKind (c : Container) : StmtKind → List Stmt
  | .classDecl => getClasses c
  | .enumDecl => getEnums c
  | .functionDecl => getFunctions c
  | .interfaceDecl => getInterfaces c
  | .namespaceDecl => getNamespaces c
  | .typeAliasDecl => getTypeAliases c
  | .variableStmt => getVariableStatements c
  | .other => []

/-- The non-throwing `getK(nameOrFindFunction)` of each kind facade (e.g.
`getClass`, source lines 525-530). -/
def getDeclarationOfKind (c : Container) (k : StmtKind) (x : NameOrPredicate) :
    Option Stmt :=
  getNodeByNameOrFindFunction (declarationsOfKind c k) x

/-- The throwing `getKOrThrow(nameOrFindFunction)` of each kind facade (e.g.
`getClassOrThrow`, source lines 532-536): throw `NotFound` exactly when the
non-throwing variant is absent, otherwise return the same object. -/
def getDeclarationOfKindOrThrow (c : Container) (k : StmtKind) (x : NameOrPredicate) :
    Except ContainerError Stmt :=
  match getDeclarationOfKind c k x with
  | some d => .ok d
  | none => .error (.notFound k)

def getClass (c : Container) (x : NameOrPredicate) : Option Stmt :=
  getNodeByNameOrFindFunction (getClasses c) x

def getFunction (c : Container) (x : NameOrPredicate) : Option Stmt :=
  getNodeByNameOrFindFunction (getFunctions c) x

/-! ### Spacing decisions of the insertion write (`_standardWrite`) -/

/-- Embeds `InsertIntoBracesOrSourceFileOptionsWriteInfo`: the members immediately
before and after the insertion point, and whether that point is the start of
the source file. -/
structure WriteInfo where
  previousMember : Option Stmt
  nextMember : Option Stmt
  isStartOfFile : Bool

/-- Embeds `StandardWriteOptions` (source lines 424-427): optional kind-specific
predicates deciding that a single newline, rather than a blank line,
separates the inserted block from its neighbor. -/
structure StandardWriteOptions where
  previousNewLine : Option (Stmt → Bool) := none
  nextNewLine : Option (Stmt → Bool) := none

/-- What the writer emits as separator at one edge of the inserted block. -/
inductive SepKind where
  | blankLine
  | newLine
  | nothing
  deriving DecidableEq, Repr

/-- Whether an optional predicate is present and holds; an absent predicate
never holds (mirrors `opts.previousNewLine == null || !opts.previousNewLine(pm)`
negated). -/
def optPredHolds (p? : Option (Stmt → Bool)) (st : Stmt) : Bool :=
  match p? with
  | none => false
  | some p => p st

/-- The leading-edge separator of `_standardWrite` (source lines 954-957):
a blank line when a previous member exists and no newline predicate holds of
it; otherwise a single newline unless the insertion point is the start of
the file. -/
def standardWriteBefore (info : WriteInfo) (opts : StandardWriteOptions) : SepKind :=
  match info.previousMember with
  | some pm =>
      if !(optPredHolds opts.previousNewLine pm) then .blankLine
      else if !info.isStartOfFile then .newLine
      else .nothing
  | none =>
      if !info.isStartOfFile then .newLine else .nothing

/-- The trailing-edge separator of `_standardWrite` (source lines 961-964):
a blank line when a next member exists and no newline predicate holds of it;
otherwise a single newline. -/
def standardWriteAfter (info : WriteInfo) (opts : StandardWriteOptions) : SepKind :=
  match info.nextMember with
  | some nm =>
      if !(optPredHolds opts.nextNewLine nm) then .blankLine
      else .newLine
  | none => .newLine

/-- The options used by the kinds that pass none (classes, enums,
interfaces, namespaces: source lines 505-516, 552-563, 654-665, 701-712). -/
def defaultWriteOptions : StandardWriteOptions :=
  { previousNewLine := none, nextNewLine := none }

/-- The check `structures[0].hasDeclareKeyword === true` (source line 611); an empty
structure list yields `undefined`, which is not `true`. -/
def firstHasDeclareKeyword (structures : List DeclStructure) : Bool :=
  match structures.head? with
  | some s => s.hasDeclareKeyword
  | none => false

/-- The check `structures[structures.length - 1].hasDeclareKeyword === true` (source
line 613). -/
def lastHasDeclareKeyword (structures : List DeclStructure) : Bool :=
  match structures.getLast? with
  | some s => s.hasDeclareKeyword
  | none => false

/-- The newline predicates `insertFunctions` passes to `_standardWrite`
(source lines 609-614): the inserted structures' own declare flag (first for
the leading edge, last for the trailing edge) and the neighbor being a
bodyless function declaration. -/
def functionWriteOptions (structures : List DeclStructure) : StandardWriteOptions :=
  { previousNewLine := some (fun previousMember =>
      firstHasDeclareKeyword structures &&
        decide (previousMember.kind = .functionDecl) && !previousMember.hasBody),
    nextNewLine := some (fun nextMember =>
      lastHasDeclareKeyword structures &&
        decide (nextMember.kind = .functionDecl) && !nextMember.hasBody) }

/-! ### The bulk `set` reconciler -/

/-- Membership in the `getKs()` view of kind `k`: the statement has kind `k`
and, for functions only, is ambient or an implementation (source lines
619-625). -/
def visibleOfKind (k : StmtKind) (st : Stmt) : Bool :=
  decide (st.kind = k) &&
    (match k with
     | .functionDecl => st.isAmbient || st.hasBody
     | _ => true)

/-- The removal `this.getKs().forEach(d => d.remove())` as performed by `set` (source
lines 873-896). `remove()` itself is not among the sources and is modelled
from the spec (section 3 lifecycle: removal destroys the statement); since
`getKs()` is the filter by `visibleOfKind`, removing each of its members
keeps exactly the complementary statements. -/
def removeEachOfKind (c : Container) (k : StmtKind) : Container :=
  withStatements c ((getCompilerStatements c).filter (fun st => !(visibleOfKind k st)))

/-- One kind reconciliation of `set` (source lines 873-896): when the
snapshot provides a list for the kind, remove every member of the kind's
view and add the snapshot's list; an absent list leaves the container
untouched. -/
def setKindStep (k : StmtKind) (structures? : Option (List DeclStructure)) (c : Container) :
    Except ContainerError Container :=
  match structures? with
  | none => .ok c
  | some structures => addOfKind (removeEachOfKind c k) k structures

/-- Embeds `StatementedNodeStructure` (with `BodiedNodeStructure`): the partial
declarative snapshot `set` receives. `bodyText` holds the raw trailing body
text, already parsed into its statement nodes; `hasBodyText` models
`hasOwnProperty("bodyText")`, so an explicitly null body text is
`hasBodyText := true` with `bodyText := none`. -/
structure StatementedNodeStructure where
  classes : Option (List DeclStructure) := none
  enums : Option (List DeclStructure) := none
  functions : Option (List DeclStructure) := none
  interfaces : Option (List DeclStructure) := none
  namespaces : Option (List DeclStructure) := none
  typeAliases : Option (List DeclStructure) := none
  bodyText : Option (List Stmt) := none
  hasBodyText : Bool := false

/-- The body-text preamble of `set` (source lines 858-868): on a bodied or
bodyable container, a non-null `bodyText` first removes every existing
statement via `removeStatements([0, count - 1])` when any exist; an
explicitly null `bodyText` on a bodyable container removes the body. -/
def setBodyTextPre (c : Container) (s : StatementedNodeStructure) :
    Except ContainerError Container :=
  if isBodiedOrBodyable c then
    if s.bodyText.isSome then
      (if 0 < (getCompilerStatements c).length then
        removeStatements c (0, ((getCompilerStatements c).length : Int) - 1)
      else
        .ok c)
    else if isBodyableShape c && s.hasBodyText then
      .ok (removeBody c)
    else
      .ok c
  else
    .ok c

/-- The body-text epilogue of `set` (source lines 898-905): after all kind
lists are reconciled, a provided body text is appended through
`addStatements` on a bodied or bodyable container. -/
def setBodyTextPost (c : Container) (s : StatementedNodeStructure) :
    Except ContainerError Container :=
  if isBodiedOrBodyable c then
    match s.bodyText with
    | some txt => addStatements c txt
    | none => .ok c
  else
    .ok c

/-- Embeds `set` (source lines 855-908): body-text preamble, then one reconciliation
per declaration-kind list in source order (classes, enums, functions,
interfaces, namespaces, type aliases), then the body-text epilogue. -/
def set (c0 : Container) (s : StatementedNodeStructure) :
    Except ContainerError Container :=
  (setBodyTextPre c0 s).bind (fun c1 =>
  (setKindStep .classDecl s.classes c1).bind (fun c2 =>
  (setKindStep .enumDecl s.enums c2).bind (fun c3 =>
  (setKindStep .functionDecl s.functions c3).bind (fun c4 =>
  (setKindStep .interfaceDecl s.interfaces c4).bind (fun c5 =>
  (setKindStep .namespaceDecl s.namespaces c5).bind (fun c6 =>
  (setKindStep .typeAliasDecl s.typeAliases c6).bind (fun c7 =>
  setBodyTextPost c7 s)))))))

/-- The statement list a kind reconciliation leaves behind, as a pure list
transformation. -/
def stepList (k : StmtKind) (structures? : Option (List DeclStructure)) (l : List Stmt) :
    List Stmt :=
  match structures? with
  | none => l
  | some structures =>
      l.filter (fun st => !(visibleOfKind k st)) ++ structures.map (synthStmt k)

/-- The statement list produced by reconciling every kind list of a snapshot
against an initially empty container: it depends only on the snapshot. -/
def snapshotKindStatements (s : StatementedNodeStructure) : List Stmt :=
  stepList .typeAliasDecl s.typeAliases
    (stepList .namespaceDecl s.namespaces
      (stepList .interfaceDecl s.interfaces
        (stepList .functionDecl s.functions
          (stepList .enumDecl s.enums
            (stepList .classDecl s.classes [])))))

/-! ### Concrete statements and structures used by witnesses and
counterexamples -/

/-- A class declaration named `A`. -/
def classA : Stmt :=
  { kind := .classDecl, name := some "A", isAmbient := false, hasBody := true }

/-- An enum declaration named `E`. -/
def enumE : Stmt :=
  { kind := .enumDecl, name := some "E", isAmbient := false, hasBody := true }

/-- A pure overload signature: a non-ambient function declaration named `f`
with no body. -/
def overloadSignatureF : Stmt :=
  { kind := .functionDecl, name := some "f", isAmbient := false, hasBody := false }

/-- The ambient bodyless function `declare function f(): void;`. -/
def ambientF : Stmt :=
  { kind := .functionDecl, name := some "f", isAmbient := true, hasBody := false }

/-- A function implementation named `f`: non-ambient, with a body. -/
def implementationF : Stmt :=
  { kind := .functionDecl, name := some "f", isAmbient := false, hasBody := true }

/-- A raw statement of no declaration kind (free-form body text). -/
def rawBodyStmt : Stmt :=
  { kind := .other, name := none, isAmbient := false, hasBody := false }

/-- The structure `\x7bname: "g", hasDeclareKeyword: true\x7d` with no body. -/
def gDeclareStructure : DeclStructure :=
  { name := some "g", hasDeclareKeyword := true, hasBody := false }

/-! ### Claim theorems -/

/-- C5: every `addK*` facade is the corresponding `insertK*` at the current
compiler-statement count — identical call, hence identical resulting
container and returned declarations — for classes, enums, functions,
interfaces, namespaces, type aliases and variable statements, and likewise
`addStatements` is `insertStatements` at the current count (source lines
454-456, 497-499, 544-546, 591-593, 646-648, 693-695, 740-742, 805-807). -/
theorem addK_delegates_to_insertK_at_count (c : Container)
    (structures : List DeclStructure) (stmts : List Stmt) :
    addClasses c structures = insertClasses c (getCompilerStatements c).length structures ∧
    addEnums c structures = insertEnums c (getCompilerStatements c).length structures ∧
    addFunctions c structures = insertFunctions c (getCompilerStatements c).length structures ∧
    addInterfaces c structures =
      insertInterfaces c (getCompilerStatements c).length structures ∧
    addNamespaces c structures =
      insertNamespaces c (getCompilerStatements c).length structures ∧
    addTypeAliases c structures =
      insertTypeAliases c (getCompilerStatements c).length structures ∧
    addVariableStatements c structures =
      insertVariableStatements c (getCompilerStatements c).length structures ∧
    addStatements c stmts = insertStatements c (getCompilerStatements c).length stmts :=
  ⟨rfl, rfl, rfl, rfl, rfl, rfl, rfl, rfl⟩

/-- C9: for insertions whose kind defines no newline predicate (classes,
enums, interfaces, namespaces pass no options to `_standardWrite`), a
previous member forces a blank line before the inserted block; with no
previous member a single newline is used exactly when the insertion point is
not the start of the file; a next member forces a blank line after, and
otherwise a single newline follows (source lines 948-965). -/
theorem standardWrite_default_blank_line_rules (pm nm : Stmt)
    (next prev : Option Stmt) (sof : Bool) :
    standardWriteBefore ⟨some pm, next, sof⟩ defaultWriteOptions = .blankLine ∧
    standardWriteBefore ⟨none, next, false⟩ defaultWriteOptions = .newLine ∧
    standardWriteBefore ⟨none, next, true⟩ defaultWriteOptions = .nothing ∧
    standardWriteAfter ⟨prev, some nm, sof⟩ defaultWriteOptions = .blankLine ∧
    standardWriteAfter ⟨prev, none, sof⟩ defaultWriteOptions = .newLine :=
  ⟨rfl, rfl, rfl, rfl, rfl⟩

/-- C6: `getFunctions` returns exactly the direct function-declaration
children that are ambient or implementations: membership in the result is
equivalent to being a function-declaration statement of the container that
is ambient or has a body; in particular a non-ambient bodyless overload
signature is excluded while an ambient bodyless declaration and a
non-ambient implementation are included (source lines 619-625). -/
theorem getFunctions_ambient_or_implementation (c : Container) (f : Stmt) :
    (f ∈ getFunctions c ↔
      f ∈ getCompilerStatements c ∧ f.kind = .functionDecl ∧
        (f.isAmbient = true ∨ f.hasBody = true)) ∧
    getFunctions (.selfBodied [overloadSignatureF]) = [] ∧
    getFunctions (.selfBodied [ambientF]) = [ambientF] ∧
    getFunctions (.selfBodied [implementationF]) = [implementationF] := by
  refine ⟨?_, by decide, by decide, by decide⟩
  simp only [getFunctions, getChildrenOfKind, List.mem_filter, and_assoc,
    decide_eq_true_eq, Bool.or_eq_true]

/-- C8: on an optionally-bodied container that has no body, every read
returns an empty sequence or absent — `getStatements`, each kind view, each
`getK` lookup — and no read constructs a body: `hasBody` is false and only
the mutating entry points (`insertStatements`, `_insertChildren`), which
call `addBodyIfNotExists` first, produce a container whose body exists
(source lines 518-523, 913-933, 935-946, 969-972). -/
theorem bodyless_container_reads_empty (k : StmtKind) (x : NameOrPredicate)
    (stmts : List Stmt) :
    getStatements (.bodyable none) = [] ∧
    getChildrenOfKind (.bodyable none) k = [] ∧
    declarationsOfKind (.bodyable none) k = [] ∧
    getDeclarationOfKind (.bodyable none) k x = none ∧
    hasBody (Container.bodyable none) = false ∧
    insertStatements (.bodyable none) 0 stmts = .ok (.bodyable (some stmts)) ∧
    hasBody (Container.bodyable (some stmts)) = true := by
  have hdecl : ∀ k' : StmtKind, declarationsOfKind (.bodyable none) k' = [] := by
    intro k'
    cases k' <;> rfl
  refine ⟨rfl, rfl, hdecl k, ?_, rfl, ?_, rfl⟩
  · simp [getDeclarationOfKind, getNodeByNameOrFindFunction, hdecl]
  · simp [insertStatements, insertChildren, addBodyIfNotExists, getCompilerStatements,
      spliceInsert, withStatements]

/-- C4: `removeStatements` fails with `OutOfBounds` — returning the error
before any deletion, so the container is not touched — whenever the range is
reversed (`start > end`) or either bound lies outside `[0, length)`; in
particular `removeStatements([2, 0])` fails on every container (source lines
482-489; the range validator is modelled from spec section 4.1). -/
theorem removeStatements_invalid_range (c : Container) (r : Int × Int)
    (h : r.1 > r.2 ∨ r.1 < 0 ∨ r.2 < 0 ∨
      ((getStatements c).length : Int) ≤ r.1 ∨
      ((getStatements c).length : Int) ≤ r.2) :
    removeStatements c r = .error .outOfBounds ∧
    removeStatements c (2, 0) = .error .outOfBounds := by
  constructor
  · have hr : rangeOutOfRange r (getStatements c).length = true := by
      simp only [rangeOutOfRange, Bool.or_eq_true, decide_eq_true_eq]
      omega
    simp [removeStatements, hr]
  · have hr : rangeOutOfRange (2, 0) (getStatements c).length = true := by
      simp only [rangeOutOfRange, Bool.or_eq_true, decide_eq_true_eq]
      omega
    simp [removeStatements, hr]

/-- Witness for C4 at a concrete input: both an in-principle range on an
empty container and the reversed range `[2, 0]` fail. -/
theorem removeStatements_invalid_range_witness :
    removeStatements (.selfBodied []) (0, 0) = .error .outOfBounds ∧
    removeStatements (.selfBodied []) (2, 0) = .error .outOfBounds :=
  removeStatements_invalid_range (.selfBodied []) (0, 0)
    (Or.inr (Or.inr (Or.inr (Or.inl (by decide)))))

/-- The postcondition of a successful positional insertion (spec section 4.4
guarantee): the call succeeds, the count grows by the inserted count, every
statement before the insertion index keeps its content and position, the
inserted statements sit contiguously at `index .. index + n - 1` in their
original order, and every statement formerly at or after the index is
shifted up by exactly the inserted count. -/
def insertionPostcondition (c : Container) (index : Nat) (newStmts : List Stmt) : Prop :=
  ∃ c', insertChildren c index newStmts = .ok c' ∧
    (getCompilerStatements c').length =
      (getCompilerStatements c).length + newStmts.length ∧
    (∀ j, j < index →
      (getCompilerStatements c')[j]? = (getCompilerStatements c)[j]?) ∧
    (∀ j, j < newStmts.length →
      (getCompilerStatements c')[index + j]? = newStmts[j]?) ∧
    (∀ j, index ≤ j → j < (getCompilerStatements c).length →
      (getCompilerStatements c')[j + newStmts.length]? = (getCompilerStatements c)[j]?)

/-- C1: a successful `insertK*` / `_insertChildren` call at a valid index
with a non-empty structure list satisfies the insertion postcondition —
inserted declarations contiguous and in order, earlier statements untouched,
later statements shifted by the inserted count (source lines 935-946; the
splice primitive is modelled from spec section 4.4). -/
theorem insertChildren_contiguous_ordered_shift (c : Container) (index : Nat)
    (newStmts : List Stmt) (hi : index ≤ (getCompilerStatements c).length)
    (hne : newStmts ≠ []) :
    insertionPostcondition c index newStmts := by
  have hb : getCompilerStatements (addBodyIfNotExists c) = getCompilerStatements c :=
    getCompilerStatements_addBodyIfNotExists c
  refine ⟨withStatements (addBodyIfNotExists c)
    (spliceInsert (getCompilerStatements (addBodyIfNotExists c)) index newStmts),
    ?_, ?_, ?_, ?_, ?_⟩
  · unfold insertChildren
    rw [hb, if_pos hi]
  · rw [getCompilerStatements_withStatements, hb]
    simp only [spliceInsert, List.length_append, List.length_take, List.length_drop]
    omega
  · intro j hj
    rw [getCompilerStatements_withStatements, hb]
    unfold spliceInsert
    have htl : (List.take index (getCompilerStatements c)).length = index :=
      List.length_take_of_le hi
    rw [List.getElem?_append_left
      (by simp only [List.length_append, htl]; omega :
        j < (List.take index (getCompilerStatements c) ++ newStmts).length)]
    rw [List.getElem?_append_left (by rw [htl]; exact hj)]
    exact List.getElem?_take_of_lt hj
  · intro j hj
    rw [getCompilerStatements_withStatements, hb]
    unfold spliceInsert
    have htl : (List.take index (getCompilerStatements c)).length = index :=
      List.length_take_of_le hi
    rw [List.getElem?_append_left
      (by simp only [List.length_append, htl]; omega :
        index + j < (List.take index (getCompilerStatements c) ++ newStmts).length)]
    rw [List.getElem?_append_right (by rw [htl]; omega)]
    rw [htl]
    congr 1
    omega
  · intro j hji hjl
    rw [getCompilerStatements_withStatements, hb]
    unfold spliceInsert
    have htl : (List.take index (getCompilerStatements c)).length = index :=
      List.length_take_of_le hi
    rw [List.getElem?_append_right
      (by simp only [List.length_append, htl]; omega :
        (List.take index (getCompilerStatements c) ++ newStmts).length ≤
          j + newStmts.length)]
    rw [List.getElem?_drop]
    simp only [List.length_append, htl]
    congr 1
    omega

/-- Witness for C1: inserting one statement at index 1 of a two-statement
source file. -/
theorem insertChildren_contiguous_ordered_shift_witness :
    1 ≤ (getCompilerStatements (.selfBodied [classA, enumE])).length ∧
    ([ambientF] : List Stmt) ≠ [] ∧
    insertionPostcondition (.selfBodied [classA, enumE]) 1 [ambientF] :=
  ⟨by decide, by decide,
    insertChildren_contiguous_ordered_shift (.selfBodied [classA, enumE]) 1 [ambientF]
      (by decide) (by decide)⟩

/-- C3: for function insertion, the leading separator is a single newline
exactly when the first inserted structure has `hasDeclareKeyword = true` and
the previous member is a bodyless function declaration (given the insertion
point is not the file start, which it cannot be with a previous member);
symmetrically the trailing separator is a single newline exactly when the
last inserted structure has the declare keyword and the next member is a
bodyless function declaration; otherwise a blank line is used (source lines
599-617, 948-965). -/
theorem insertFunctions_ambient_adjacency (structures : List DeclStructure)
    (next prev : Option Stmt) (pm nm : Stmt) (sof : Bool) :
    (sof = false →
      (standardWriteBefore ⟨some pm, next, sof⟩ (functionWriteOptions structures) =
          .newLine ↔
        (firstHasDeclareKeyword structures = true ∧ pm.kind = .functionDecl ∧
          pm.hasBody = false))) ∧
    (standardWriteAfter ⟨prev, some nm, sof⟩ (functionWriteOptions structures) =
        .newLine ↔
      (lastHasDeclareKeyword structures = true ∧ nm.kind = .functionDecl ∧
        nm.hasBody = false)) := by
  constructor
  · intro hsof
    subst hsof
    show (if !(firstHasDeclareKeyword structures &&
        decide (pm.kind = .functionDecl) && !pm.hasBody) then SepKind.blankLine
      else if !false then SepKind.newLine else SepKind.nothing) = SepKind.newLine ↔ _
    cases hp : (firstHasDeclareKeyword structures &&
        decide (pm.kind = .functionDecl) && !pm.hasBody) with
    | false =>
      refine ⟨fun hcontra => absurd hcontra (by decide), fun hconj => ?_⟩
      obtain ⟨h1, h2, h3⟩ := hconj
      rw [h1, h3] at hp
      simp [h2] at hp
    | true =>
      rw [Bool.and_eq_true, Bool.and_eq_true] at hp
      refine ⟨fun _ => ⟨hp.1.1, of_decide_eq_true hp.1.2, ?_⟩, fun _ => rfl⟩
      cases hb : pm.hasBody with
      | false => rfl
      | true =>
        have := hp.2
        rw [hb] at this
        exact absurd this (by decide)
  · show (if !(lastHasDeclareKeyword structures &&
        decide (nm.kind = .functionDecl) && !nm.hasBody) then SepKind.blankLine
      else SepKind.newLine) = SepKind.newLine ↔ _
    cases hp : (lastHasDeclareKeyword structures &&
        decide (nm.kind = .functionDecl) && !nm.hasBody) with
    | false =>
      refine ⟨fun hcontra => absurd hcontra (by decide), fun hconj => ?_⟩
      obtain ⟨h1, h2, h3⟩ := hconj
      rw [h1, h3] at hp
      simp [h2] at hp
    | true =>
      rw [Bool.and_eq_true, Bool.and_eq_true] at hp
      refine ⟨fun _ => ⟨hp.1.1, of_decide_eq_true hp.1.2, ?_⟩, fun _ => rfl⟩
      cases hb : nm.hasBody with
      | false => rfl
      | true =>
        have := hp.2
        rw [hb] at this
        exact absurd this (by decide)

/-- Witness for C3: the spec scenario — after `declare function f(): void;`,
inserting `\x7bname: "g", hasDeclareKeyword: true\x7d` with no body yields a
single newline before the inserted block, and symmetrically a single newline
when such an ambient signature is the next member. -/
theorem insertFunctions_ambient_adjacency_witness :
    standardWriteBefore ⟨some ambientF, none, false⟩
      (functionWriteOptions [gDeclareStructure]) = .newLine ∧
    standardWriteAfter ⟨none, some ambientF, false⟩
      (functionWriteOptions [gDeclareStructure]) = .newLine := by
  have h := insertFunctions_ambient_adjacency [gDeclareStructure] none none
    ambientF ambientF false
  exact ⟨(h.1 rfl).mpr ⟨by decide, by decide, by decide⟩,
    h.2.mpr ⟨by decide, by decide, by decide⟩⟩

/-- C7 counterexample: a pure overload signature named `f` is a direct child
of kind `FunctionDeclaration` whose declared name is `f`, yet
`getFunction("f")` returns absent — the lookup searches the filtered
`getFunctions()` view, not all direct children of the kind (source lines
619-638). -/
theorem getFunction_overload_excluded_cex :
    getFunction (.selfBodied [overloadSignatureF]) (.name "f") = none ∧
    overloadSignatureF ∈
      getChildrenOfKind (.selfBodied [overloadSignatureF]) .functionDecl ∧
    overloadSignatureF.name = some "f" := by
  refine ⟨by decide, ?_, rfl⟩
  decide

/-- C7 (amended): for every kind, `getK(x)` is absent exactly when no member
of the kind's view (`getKs()`, which for functions excludes pure overload
signatures) matches `x`; `getKOrThrow(x)` fails with `NotFound` in exactly
that case and otherwise returns the very same object `getK(x)` returns; a
string argument matches the declared name, and a nameless declaration never
matches a string (source lines 525-536 and the analogous facades; the
name-or-predicate finder is modelled from spec section 4.3). -/
theorem getDeclaration_absent_iff_view_no_match (c : Container) (k : StmtKind)
    (x : NameOrPredicate) :
    (getDeclarationOfKind c k x = none ↔
      ∀ st ∈ declarationsOfKind c k, matchesNameOrFind x st = false) ∧
    (∀ d, getDeclarationOfKind c k x = some d →
      getDeclarationOfKindOrThrow c k x = .ok d) ∧
    (getDeclarationOfKind c k x = none →
      getDeclarationOfKindOrThrow c k x = .error (.notFound k)) ∧
    (∀ n st, x = .name n → st.name = none → matchesNameOrFind x st = false) := by
  refine ⟨?_, ?_, ?_, ?_⟩
  · unfold getDeclarationOfKind getNodeByNameOrFindFunction
    rw [List.find?_eq_none]
    constructor
    · intro h st hst
      have := h st hst
      cases hm : matchesNameOrFind x st
      · rfl
      · exact absurd hm this
    · intro h st hst
      rw [h st hst]
      decide
  · intro d hd
    unfold getDeclarationOfKindOrThrow
    rw [hd]
  · intro hd
    unfold getDeclarationOfKindOrThrow
    rw [hd]
  · intro n st hx hname
    subst hx
    unfold matchesNameOrFind
    rw [hname]
    simp

/-- Witness for C7's amended theorem: a source file holding one class `A` —
lookup by the missing name `B` is absent and throws `NotFound`, lookup by
`A` returns the class through both variants. -/
theorem getDeclaration_absent_iff_view_no_match_witness :
    getDeclarationOfKind (.selfBodied [classA]) .classDecl (.name "B") = none ∧
    getDeclarationOfKindOrThrow (.selfBodied [classA]) .classDecl (.name "B") =
      .error (.notFound .classDecl) ∧
    getDeclarationOfKindOrThrow (.selfBodied [classA]) .classDecl (.name "A") =
      .ok classA := by
  have h := getDeclaration_absent_iff_view_no_match (.selfBodied [classA])
    .classDecl (.name "B")
  have h2 := getDeclaration_absent_iff_view_no_match (.selfBodied [classA])
    .classDecl (.name "A")
  have habsent : getDeclarationOfKind (.selfBodied [classA]) .classDecl (.name "B") =
      none := h.1.mpr (by decide)
  exact ⟨habsent, h.2.2.1 habsent, h2.2.1 classA (by decide)⟩

/-! ### Support lemmas for the `set` reconciler -/

theorem ok_bind {α β : Type} (a : α) (f : α → Except ContainerError β) :
    (Except.ok a).bind f = f a :=
  rfl

theorem withStatements_addBodyIfNotExists (c : Container) (l : List Stmt) :
    withStatements (addBodyIfNotExists c) l = withStatements c l := by
  cases c with
  | selfBodied s => rfl
  | bodyable b => cases b <;> rfl
  | bodied s => rfl

theorem isBodiedOrBodyable_addBodyIfNotExists (c : Container) :
    isBodiedOrBodyable (addBodyIfNotExists c) = isBodiedOrBodyable c := by
  cases c with
  | selfBodied s => rfl
  | bodyable b => cases b <;> rfl
  | bodied s => rfl

/-- Inserting at the current count appends the new statements. -/
theorem insertChildren_append (c : Container) (newStmts : List Stmt) :
    insertChildren c (getCompilerStatements c).length newStmts =
      .ok (withStatements c (getCompilerStatements c ++ newStmts)) := by
  unfold insertChildren
  rw [getCompilerStatements_addBodyIfNotExists]
  rw [if_pos (le_refl _)]
  rw [withStatements_addBodyIfNotExists]
  unfold spliceInsert
  rw [List.take_length, List.drop_length, List.append_nil]

theorem addOfKind_eq (c : Container) (k : StmtKind) (L : List DeclStructure) :
    addOfKind c k L =
      .ok (withStatements c (getCompilerStatements c ++ L.map (synthStmt k))) := by
  unfold addOfKind insertOfKind
  exact insertChildren_append c (L.map (synthStmt k))

/-- One kind reconciliation always succeeds and acts as `stepList` on the
statement list, preserving the container's shape. -/
theorem setKindStep_exists (k : StmtKind) (o : Option (List DeclStructure))
    (c : Container) :
    ∃ c2, setKindStep k o c = .ok c2 ∧
      getCompilerStatements c2 = stepList k o (getCompilerStatements c) ∧
      isBodiedOrBodyable c2 = isBodiedOrBodyable c ∧
      (∀ l, withStatements c2 l = withStatements c l) := by
  cases o with
  | none => exact ⟨c, rfl, rfl, rfl, fun l => rfl⟩
  | some L =>
    refine ⟨withStatements c
      ((getCompilerStatements c).filter (fun st => !(visibleOfKind k st)) ++
        L.map (synthStmt k)), ?_, ?_, ?_, ?_⟩
    · show addOfKind (removeEachOfKind c k) k L = _
      unfold removeEachOfKind
      rw [addOfKind_eq, getCompilerStatements_withStatements,
        withStatements_withStatements]
    · rw [getCompilerStatements_withStatements]
      rfl
    · exact isBodiedOrBodyable_withStatements c _
    · intro l
      exact withStatements_withStatements c _ l

/-- A non-empty statement list is cleared whole by
`removeStatements([0, count - 1])`. -/
theorem removeStatements_all (c : Container)
    (h : 0 < (getStatements c).length) :
    removeStatements c (0, ((getStatements c).length : Int) - 1) =
      .ok (withStatements c []) := by
  unfold removeStatements
  have hr : rangeOutOfRange (0, ((getStatements c).length : Int) - 1)
      (getStatements c).length = false := by
    simp only [rangeOutOfRange, Bool.or_eq_false_iff, decide_eq_false_iff_not]
    omega
  rw [hr]
  show Except.ok (withStatements c (removeRange (getStatements c)
    (Int.toNat 0) (((getStatements c).length : Int) - 1).toNat)) = _
  unfold removeRange
  have hidx : ((((getStatements c).length : Int) - 1).toNat + 1) =
      (getStatements c).length := by
    omega
  rw [hidx, List.drop_length]
  simp

/-- The kind-list chain of `set` as a pure list transformation. -/
def reconcileKindLists (s : StatementedNodeStructure) (l : List Stmt) : List Stmt :=
  stepList .typeAliasDecl s.typeAliases
    (stepList .namespaceDecl s.namespaces
      (stepList .interfaceDecl s.interfaces
        (stepList .functionDecl s.functions
          (stepList .enumDecl s.enums
            (stepList .classDecl s.classes l)))))

theorem snapshotKindStatements_eq_reconcile (s : StatementedNodeStructure) :
    snapshotKindStatements s = reconcileKindLists s [] :=
  rfl

/-- Running `set` up to the body-text epilogue: the preamble and the kind chain
always succeed, yielding a container with the reconciled statement list. -/
theorem set_chain_exists (c1 : Container) (s : StatementedNodeStructure) :
    ∃ c7, ((setKindStep .classDecl s.classes c1).bind (fun c2 =>
      (setKindStep .enumDecl s.enums c2).bind (fun c3 =>
      (setKindStep .functionDecl s.functions c3).bind (fun c4 =>
      (setKindStep .interfaceDecl s.interfaces c4).bind (fun c5 =>
      (setKindStep .namespaceDecl s.namespaces c5).bind (fun c6 =>
      (setKindStep .typeAliasDecl s.typeAliases c6).bind (fun c7 =>
      setBodyTextPost c7 s)))))) = setBodyTextPost c7 s) ∧
      getCompilerStatements c7 = reconcileKindLists s (getCompilerStatements c1) ∧
      isBodiedOrBodyable c7 = isBodiedOrBodyable c1 ∧
      (∀ l, withStatements c7 l = withStatements c1 l) := by
  obtain ⟨c2, h2, hs2, hb2, hw2⟩ := setKindStep_exists .classDecl s.classes c1
  obtain ⟨c3, h3, hs3, hb3, hw3⟩ := setKindStep_exists .enumDecl s.enums c2
  obtain ⟨c4, h4, hs4, hb4, hw4⟩ := setKindStep_exists .functionDecl s.functions c3
  obtain ⟨c5, h5, hs5, hb5, hw5⟩ := setKindStep_exists .interfaceDecl s.interfaces c4
  obtain ⟨c6, h6, hs6, hb6, hw6⟩ := setKindStep_exists .namespaceDecl s.namespaces c5
  obtain ⟨c7, h7, hs7, hb7, hw7⟩ := setKindStep_exists .typeAliasDecl s.typeAliases c6
  refine ⟨c7, ?_, ?_, ?_, ?_⟩
  · rw [h2, ok_bind, h3, ok_bind, h4, ok_bind, h5, ok_bind, h6, ok_bind, h7, ok_bind]
  · rw [hs7, hs6, hs5, hs4, hs3, hs2]
    rfl
  · rw [hb7, hb6, hb5, hb4, hb3, hb2]
  · intro l
    rw [hw7, hw6, hw5, hw4, hw3, hw2]

theorem visibleOfKind_synthStmt_ne (k k' : StmtKind) (h : k' ≠ k)
    (s : DeclStructure) :
    visibleOfKind k' (synthStmt k s) = false := by
  have hd : decide ((synthStmt k s).kind = k') = false :=
    decide_eq_false (fun hh => h hh.symm)
  unfold visibleOfKind
  rw [hd]
  exact Bool.false_and _

theorem visibleOfKind_synthStmt_self (k : StmtKind) (s : DeclStructure)
    (hk : k ≠ .functionDecl) :
    visibleOfKind k (synthStmt k s) = true := by
  unfold visibleOfKind synthStmt
  cases k <;> simp_all

theorem visibleOfKind_synthStmt_fn (s : DeclStructure) :
    visibleOfKind .functionDecl (synthStmt .functionDecl s) =
      (s.hasDeclareKeyword || s.hasBody) := by
  unfold visibleOfKind synthStmt
  simp

theorem filter_visibleOfKind_map_synth_ne (k k' : StmtKind) (h : k' ≠ k)
    (L : List DeclStructure) :
    (L.map (synthStmt k)).filter (visibleOfKind k') = [] := by
  refine List.filter_eq_nil_iff.mpr ?_
  intro a ha
  obtain ⟨s, hs, rfl⟩ := List.mem_map.mp ha
  rw [visibleOfKind_synthStmt_ne k k' h s]
  decide

theorem filter_visibleOfKind_map_synth_self (k : StmtKind) (hk : k ≠ .functionDecl)
    (L : List DeclStructure) :
    (L.map (synthStmt k)).filter (visibleOfKind k) = L.map (synthStmt k) := by
  refine List.filter_eq_self.mpr ?_
  intro a ha
  obtain ⟨s, hs, rfl⟩ := List.mem_map.mp ha
  exact visibleOfKind_synthStmt_self k s hk

theorem filter_visibleOfKind_map_synth_fn (L : List DeclStructure) :
    (L.map (synthStmt .functionDecl)).filter (visibleOfKind .functionDecl) =
      (L.map (synthStmt .functionDecl)).filter (fun f => f.isAmbient || f.hasBody) := by
  refine List.filter_congr ?_
  intro st hst
  obtain ⟨s, hs, rfl⟩ := List.mem_map.mp hst
  rw [visibleOfKind_synthStmt_fn s]
  rfl

theorem stepList_filter_other (k k' : StmtKind) (h : k' ≠ k)
    (o : Option (List DeclStructure)) (l : List Stmt) :
    (stepList k o l).filter (visibleOfKind k') = l.filter (visibleOfKind k') := by
  cases o with
  | none => rfl
  | some L =>
    show ((l.filter (fun st => !(visibleOfKind k st)) ++ L.map (synthStmt k)).filter
      (visibleOfKind k')) = _
    rw [List.filter_append, filter_visibleOfKind_map_synth_ne k k' h L,
      List.append_nil, List.filter_filter]
    refine List.filter_congr ?_
    intro st _
    cases hv : visibleOfKind k' st with
    | false => rw [Bool.false_and]
    | true =>
      rw [Bool.true_and]
      have hkind : st.kind = k' := by
        unfold visibleOfKind at hv
        rw [Bool.and_eq_true] at hv
        exact of_decide_eq_true hv.1
      have hz : visibleOfKind k st = false := by
        unfold visibleOfKind
        rw [decide_eq_false (fun hh => h (hkind.symm.trans hh))]
        exact Bool.false_and _
      rw [hz]
      rfl

theorem stepList_filter_self (k : StmtKind) (L : List DeclStructure) (l : List Stmt) :
    (stepList k (some L) l).filter (visibleOfKind k) =
      (L.map (synthStmt k)).filter (visibleOfKind k) := by
  show ((l.filter (fun st => !(visibleOfKind k st)) ++ L.map (synthStmt k)).filter
    (visibleOfKind k)) = _
  rw [List.filter_append]
  have h0 : (l.filter (fun st => !(visibleOfKind k st))).filter (visibleOfKind k) = [] := by
    rw [List.filter_filter]
    refine List.filter_eq_nil_iff.mpr ?_
    intro a _
    cases hv : visibleOfKind k a <;> simp [hv]
  rw [h0, List.nil_append]

theorem stepList_filter_skip (k k' : StmtKind) (o : Option (List DeclStructure))
    (l : List Stmt) (h : k' ≠ k ∨ o = none) :
    (stepList k o l).filter (visibleOfKind k') = l.filter (visibleOfKind k') := by
  rcases h with h | h
  · exact stepList_filter_other k k' h o l
  · subst h
    rfl

theorem getChildrenOfKind_eq_filter_visible (c : Container) (k : StmtKind)
    (hk : k ≠ .functionDecl) :
    getChildrenOfKind c k = (getCompilerStatements c).filter (visibleOfKind k) := by
  unfold getChildrenOfKind
  refine List.filter_congr ?_
  intro st _
  cases k <;> first
    | exact absurd rfl hk
    | simp [visibleOfKind]

theorem getFunctions_eq_filter_visible (c : Container) :
    getFunctions c =
      (getCompilerStatements c).filter (visibleOfKind .functionDecl) := by
  unfold getFunctions getChildrenOfKind
  rw [List.filter_filter]
  refine List.filter_congr ?_
  intro st _
  unfold visibleOfKind
  exact Bool.and_comm _ _

theorem setBodyTextPre_none (c : Container) (s : StatementedNodeStructure)
    (hbt : s.bodyText = none) (hhb : s.hasBodyText = false) :
    setBodyTextPre c s = .ok c := by
  unfold setBodyTextPre
  rw [hbt, hhb]
  simp

/-- C10: on a bodied or bodyable container that currently has at least one
statement, `set` with a non-null `bodyText` first clears every existing
statement via `removeStatements([0, count - 1])` — before any kind-list
reconciliation or body-text append — so the resulting statement list is
built from the snapshot alone (`snapshotKindStatements`, which does not
depend on the container) followed by the body text; no pre-existing
statement survives (source lines 858-867, 898-905). -/
theorem set_bodyText_clears_all_statements (c : Container)
    (s : StatementedNodeStructure) (txt : List Stmt)
    (h1 : isBodiedOrBodyable c = true) (h2 : s.bodyText = some txt)
    (h3 : 0 < (getCompilerStatements c).length) :
    set c s = .ok (withStatements c (snapshotKindStatements s ++ txt)) := by
  have hpre : setBodyTextPre c s = .ok (withStatements c []) := by
    unfold setBodyTextPre
    rw [h2]
    rw [if_pos h1, if_pos (Option.isSome_some : (some txt).isSome = true), if_pos h3]
    have hcount : 0 < (getStatements c).length := h3
    exact removeStatements_all c hcount
  obtain ⟨c7, hchain, hs7, hb7, hw7⟩ := set_chain_exists (withStatements c []) s
  have hb : isBodiedOrBodyable c7 = true := by
    rw [hb7, isBodiedOrBodyable_withStatements, h1]
  have hpost : setBodyTextPost c7 s =
      .ok (withStatements c (snapshotKindStatements s ++ txt)) := by
    unfold setBodyTextPost
    rw [h2, if_pos hb]
    show addStatements c7 txt = _
    unfold addStatements insertStatements
    rw [insertChildren_append, hw7, withStatements_withStatements]
    congr 2
    rw [hs7, getCompilerStatements_withStatements]
    rfl
  unfold set
  rw [hpre, ok_bind, hchain, hpost]

/-- The snapshot providing only free-form body text (with the property
present). -/
def bodyOnlySnapshot : StatementedNodeStructure :=
  { bodyText := some [rawBodyStmt], hasBodyText := true }

/-- Witness for C10: a bodied container holding one class, `set` with only
body text. -/
theorem set_bodyText_clears_all_statements_witness :
    set (.bodied [classA]) bodyOnlySnapshot =
      .ok (withStatements (.bodied [classA])
        (snapshotKindStatements bodyOnlySnapshot ++ [rawBodyStmt])) :=
  set_bodyText_clears_all_statements (.bodied [classA]) bodyOnlySnapshot
    [rawBodyStmt] (by decide) rfl (by decide)

/-- C2 counterexample: on a bodied container holding one class, `set` with a
snapshot that omits the `classes` list but supplies `bodyText` does not
leave the class untouched — the whole statement list is cleared first, so
the class disappears although its kind's list is absent from the snapshot
(source lines 858-867). -/
theorem set_absent_kind_bodyText_cex :
    set (.bodied [classA]) bodyOnlySnapshot = .ok (.bodied [rawBodyStmt]) ∧
    bodyOnlySnapshot.classes = none ∧
    getClasses (.bodied [classA]) = [classA] ∧
    getClasses (.bodied [rawBodyStmt]) = [] := by
  refine ⟨?_, rfl, by decide, by decide⟩
  rfl

/-- C2 (amended): when the snapshot supplies no body text, `set` reconciles
each provided kind list by full replace — afterwards the kind's view is
exactly the synthesized snapshot list (for functions, its
ambient-or-implementation subset, since the view hides pure overload
signatures) — and leaves the view of every kind whose list is absent
unchanged (variable statements have no list in the snapshot and are always
untouched). When the snapshot does supply body text on a bodied or bodyable
container, the kind lists are still reconciled before the append, so the
appended text is a suffix sitting after everything else (source lines
855-908). -/
theorem set_kind_lists_full_replace (c : Container) (s : StatementedNodeStructure) :
    (s.bodyText = none → s.hasBodyText = false →
      ∃ c', set c s = .ok c' ∧
        (s.classes = none → getClasses c' = getClasses c) ∧
        (∀ L, s.classes = some L → getClasses c' = L.map (synthStmt .classDecl)) ∧
        (s.enums = none → getEnums c' = getEnums c) ∧
        (∀ L, s.enums = some L → getEnums c' = L.map (synthStmt .enumDecl)) ∧
        (s.functions = none → getFunctions c' = getFunctions c) ∧
        (∀ L, s.functions = some L → getFunctions c' =
          (L.map (synthStmt .functionDecl)).filter (fun f => f.isAmbient || f.hasBody)) ∧
        (s.interfaces = none → getInterfaces c' = getInterfaces c) ∧
        (∀ L, s.interfaces = some L →
          getInterfaces c' = L.map (synthStmt .interfaceDecl)) ∧
        (s.namespaces = none → getNamespaces c' = getNamespaces c) ∧
        (∀ L, s.namespaces = some L →
          getNamespaces c' = L.map (synthStmt .namespaceDecl)) ∧
        (s.typeAliases = none → getTypeAliases c' = getTypeAliases c) ∧
        (∀ L, s.typeAliases = some L →
          getTypeAliases c' = L.map (synthStmt .typeAliasDecl)) ∧
        getVariableStatements c' = getVariableStatements c) ∧
    (∀ txt, isBodiedOrBodyable c = true → s.bodyText = some txt →
      ∃ c' pre, set c s = .ok c' ∧ getCompilerStatements c' = pre ++ txt) := by
  constructor
  · intro hbt hhb
    obtain ⟨c7, hchain, hs7, hb7, hw7⟩ := set_chain_exists c s
    have hpost : setBodyTextPost c7 s = .ok c7 := by
      unfold setBodyTextPost
      rw [hbt]
      simp
    have hset : set c s = .ok c7 := by
      unfold set
      rw [setBodyTextPre_none c s hbt hhb, ok_bind, hchain, hpost]
    refine ⟨c7, hset, ?_, ?_, ?_, ?_, ?_, ?_, ?_, ?_, ?_, ?_, ?_, ?_, ?_⟩
    · intro ho
      unfold getClasses
      rw [getChildrenOfKind_eq_filter_visible c7 .classDecl (by decide),
        getChildrenOfKind_eq_filter_visible c .classDecl (by decide), hs7]
      unfold reconcileKindLists
      rw [stepList_filter_skip .typeAliasDecl .classDecl _ _ (Or.inl (by decide)),
        stepList_filter_skip .namespaceDecl .classDecl _ _ (Or.inl (by decide)),
        stepList_filter_skip .interfaceDecl .classDecl _ _ (Or.inl (by decide)),
        stepList_filter_skip .functionDecl .classDecl _ _ (Or.inl (by decide)),
        stepList_filter_skip .enumDecl .classDecl _ _ (Or.inl (by decide)),
        stepList_filter_skip .classDecl .classDecl _ _ (Or.inr ho)]
    · intro L ho
      unfold getClasses
      rw [getChildrenOfKind_eq_filter_visible c7 .classDecl (by decide), hs7]
      unfold reconcileKindLists
      rw [stepList_filter_skip .typeAliasDecl .classDecl _ _ (Or.inl (by decide)),
        stepList_filter_skip .namespaceDecl .classDecl _ _ (Or.inl (by decide)),
        stepList_filter_skip .interfaceDecl .classDecl _ _ (Or.inl (by decide)),
        stepList_filter_skip .functionDecl .classDecl _ _ (Or.inl (by decide)),
        stepList_filter_skip .enumDecl .classDecl _ _ (Or.inl (by decide)), ho,
        stepList_filter_self .classDecl L _]
      exact filter_visibleOfKind_map_synth_self .classDecl (by decide) L
    · intro ho
      unfold getEnums
      rw [getChildrenOfKind_eq_filter_visible c7 .enumDecl (by decide),
        getChildrenOfKind_eq_filter_visible c .enumDecl (by decide), hs7]
      unfold reconcileKindLists
      rw [stepList_filter_skip .typeAliasDecl .enumDecl _ _ (Or.inl (by decide)),
        stepList_filter_skip .namespaceDecl .enumDecl _ _ (Or.inl (by decide)),
        stepList_filter_skip .interfaceDecl .enumDecl _ _ (Or.inl (by decide)),
        stepList_filter_skip .functionDecl .enumDecl _ _ (Or.inl (by decide)),
        stepList_filter_skip .enumDecl .enumDecl _ _ (Or.inr ho),
        stepList_filter_skip .classDecl .enumDecl _ _ (Or.inl (by decide))]
    · intro L ho
      unfold getEnums
      rw [getChildrenOfKind_eq_filter_visible c7 .enumDecl (by decide), hs7]
      unfold reconcileKindLists
      rw [stepList_filter_skip .typeAliasDecl .enumDecl _ _ (Or.inl (by decide)),
        stepList_filter_skip .namespaceDecl .enumDecl _ _ (Or.inl (by decide)),
        stepList_filter_skip .interfaceDecl .enumDecl _ _ (Or.inl (by decide)),
        stepList_filter_skip .functionDecl .enumDecl _ _ (Or.inl (by decide)), ho,
        stepList_filter_self .enumDecl L _]
      exact filter_visibleOfKind_map_synth_self .enumDecl (by decide) L
    · intro ho
      rw [getFunctions_eq_filter_visible c7, getFunctions_eq_filter_visible c, hs7]
      unfold reconcileKindLists
      rw [stepList_filter_skip .typeAliasDecl .functionDecl _ _ (Or.inl (by decide)),
        stepList_filter_skip .namespaceDecl .functionDecl _ _ (Or.inl (by decide)),
        stepList_filter_skip .interfaceDecl .functionDecl _ _ (Or.inl (by decide)),
        stepList_filter_skip .functionDecl .functionDecl _ _ (Or.inr ho),
        stepList_filter_skip .enumDecl .functionDecl _ _ (Or.inl (by decide)),
        stepList_filter_skip .classDecl .functionDecl _ _ (Or.inl (by decide))]
    · intro L ho
      rw [getFunctions_eq_filter_visible c7, hs7]
      unfold reconcileKindLists
      rw [stepList_filter_skip .typeAliasDecl .functionDecl _ _ (Or.inl (by decide)),
        stepList_filter_skip .namespaceDecl .functionDecl _ _ (Or.inl (by decide)),
        stepList_filter_skip .interfaceDecl .functionDecl _ _ (Or.inl (by decide)), ho,
        stepList_filter_self .functionDecl L _]
      exact filter_visibleOfKind_map_synth_fn L
    · intro ho
      unfold getInterfaces
      rw [getChildrenOfKind_eq_filter_visible c7 .interfaceDecl (by decide),
        getChildrenOfKind_eq_filter_visible c .interfaceDecl (by decide), hs7]
      unfold reconcileKindLists
      rw [stepList_filter_skip .typeAliasDecl .interfaceDecl _ _ (Or.inl (by decide)),
        stepList_filter_skip .namespaceDecl .interfaceDecl _ _ (Or.inl (by decide)),
        stepList_filter_skip .interfaceDecl .interfaceDecl _ _ (Or.inr ho),
        stepList_filter_skip .functionDecl .interfaceDecl _ _ (Or.inl (by decide)),
        stepList_filter_skip .enumDecl .interfaceDecl _ _ (Or.inl (by decide)),
        stepList_filter_skip .classDecl .interfaceDecl _ _ (Or.inl (by decide))]
    · intro L ho
      unfold getInterfaces
      rw [getChildrenOfKind_eq_filter_visible c7 .interfaceDecl (by decide), hs7]
      unfold reconcileKindLists
      rw [stepList_filter_skip .typeAliasDecl .interfaceDecl _ _ (Or.inl (by decide)),
        stepList_filter_skip .namespaceDecl .interfaceDecl _ _ (Or.inl (by decide)), ho,
        stepList_filter_self .interfaceDecl L _]
      exact filter_visibleOfKind_map_synth_self .interfaceDecl (by decide) L
    · intro ho
      unfold getNamespaces
      rw [getChildrenOfKind_eq_filter_visible c7 .namespaceDecl (by decide),
        getChildrenOfKind_eq_filter_visible c .namespaceDecl (by decide), hs7]
      unfold reconcileKindLists
      rw [stepList_filter_skip .typeAliasDecl .namespaceDecl _ _ (Or.inl (by decide)),
        stepList_filter_skip .namespaceDecl .namespaceDecl _ _ (Or.inr ho),
        stepList_filter_skip .interfaceDecl .namespaceDecl _ _ (Or.inl (by decide)),
        stepList_filter_skip .functionDecl .namespaceDecl _ _ (Or.inl (by decide)),
        stepList_filter_skip .enumDecl .namespaceDecl _ _ (Or.inl (by decide)),
        stepList_filter_skip .classDecl .namespaceDecl _ _ (Or.inl (by decide))]
    · intro L ho
      unfold getNamespaces
      rw [getChildrenOfKind_eq_filter_visible c7 .namespaceDecl (by decide), hs7]
      unfold reconcileKindLists
      rw [stepList_filter_skip .typeAliasDecl .namespaceDecl _ _ (Or.inl (by decide)), ho,
        stepList_filter_self .namespaceDecl L _]
      exact filter_visibleOfKind_map_synth_self .namespaceDecl (by decide) L
    · intro ho
      unfold getTypeAliases
      rw [getChildrenOfKind_eq_filter_visible c7 .typeAliasDecl (by decide),
        getChildrenOfKind_eq_filter_visible c .typeAliasDecl (by decide), hs7]
      unfold reconcileKindLists
      rw [stepList_filter_skip .typeAliasDecl .typeAliasDecl _ _ (Or.inr ho),
        stepList_filter_skip .namespaceDecl .typeAliasDecl _ _ (Or.inl (by decide)),
        stepList_filter_skip .interfaceDecl .typeAliasDecl _ _ (Or.inl (by decide)),
        stepList_filter_skip .functionDecl .typeAliasDecl _ _ (Or.inl (by decide)),
        stepList_filter_skip .enumDecl .typeAliasDecl _ _ (Or.inl (by decide)),
        stepList_filter_skip .classDecl .typeAliasDecl _ _ (Or.inl (by decide))]
    · intro L ho
      unfold getTypeAliases
      rw [getChildrenOfKind_eq_filter_visible c7 .typeAliasDecl (by decide), hs7]
      unfold reconcileKindLists
      rw [ho, stepList_filter_self .typeAliasDecl L _]
      exact filter_visibleOfKind_map_synth_self .typeAliasDecl (by decide) L
    · unfold getVariableStatements
      rw [getChildrenOfKind_eq_filter_visible c7 .variableStmt (by decide),
        getChildrenOfKind_eq_filter_visible c .variableStmt (by decide), hs7]
      unfold reconcileKindLists
      rw [stepList_filter_skip .typeAliasDecl .variableStmt _ _ (Or.inl (by decide)),
        stepList_filter_skip .namespaceDecl .variableStmt _ _ (Or.inl (by decide)),
        stepList_filter_skip .interfaceDecl .variableStmt _ _ (Or.inl (by decide)),
        stepList_filter_skip .functionDecl .variableStmt _ _ (Or.inl (by decide)),
        stepList_filter_skip .enumDecl .variableStmt _ _ (Or.inl (by decide)),
        stepList_filter_skip .classDecl .variableStmt _ _ (Or.inl (by decide))]
  · intro txt hbb hbt
    by_cases hcount : 0 < (getCompilerStatements c).length
    · have hpre : setBodyTextPre c s = .ok (withStatements c []) := by
        unfold setBodyTextPre
        rw [hbt]
        rw [if_pos hbb, if_pos (Option.isSome_some : (some txt).isSome = true), if_pos hcount]
        exact removeStatements_all c hcount
      obtain ⟨c7, hchain, hs7, hb7, hw7⟩ := set_chain_exists (withStatements c []) s
      have hb : isBodiedOrBodyable c7 = true := by
        rw [hb7, isBodiedOrBodyable_withStatements, hbb]
      refine ⟨withStatements c (getCompilerStatements c7 ++ txt),
        getCompilerStatements c7, ?_, ?_⟩
      · unfold set
        rw [hpre, ok_bind, hchain]
        unfold setBodyTextPost
        rw [hbt, if_pos hb]
        show addStatements c7 txt = _
        unfold addStatements insertStatements
        rw [insertChildren_append, hw7, withStatements_withStatements]
      · rw [getCompilerStatements_withStatements]
    · have hpre : setBodyTextPre c s = .ok c := by
        unfold setBodyTextPre
        rw [hbt]
        rw [if_pos hbb, if_pos (Option.isSome_some : (some txt).isSome = true), if_neg hcount]
      obtain ⟨c7, hchain, hs7, hb7, hw7⟩ := set_chain_exists c s
      have hb : isBodiedOrBodyable c7 = true := by
        rw [hb7, hbb]
      refine ⟨withStatements c7 (getCompilerStatements c7 ++ txt),
        getCompilerStatements c7, ?_, ?_⟩
      · unfold set
        rw [hpre, ok_bind, hchain]
        unfold setBodyTextPost
        rw [hbt, if_pos hb]
        show addStatements c7 txt = _
        unfold addStatements insertStatements
        rw [insertChildren_append]
      · rw [getCompilerStatements_withStatements]

/-- The snapshot providing only a replacement function list. -/
def functionsOnlySnapshot : StatementedNodeStructure :=
  { functions := some [gDeclareStructure] }

/-- Witness for C2's amended theorem: replacing only the function list of a
source file holding one class leaves the class view unchanged and makes the
function view exactly the synthesized snapshot function; and on a bodied
container, `set` with body text yields the text as a suffix. -/
theorem set_kind_lists_full_replace_witness :
    (∃ c', set (.selfBodied [classA]) functionsOnlySnapshot = .ok c' ∧
      getClasses c' = getClasses (.selfBodied [classA]) ∧
      getFunctions c' = [synthStmt .functionDecl gDeclareStructure]) ∧
    (∃ c' pre, set (.bodied [classA]) bodyOnlySnapshot = .ok c' ∧
      getCompilerStatements c' = pre ++ [rawBodyStmt]) := by
  constructor
  · obtain ⟨c', hok, h1, h2, h3, h4, h5, h6, h7, h8, h9, h10, h11, h12, h13⟩ :=
      (set_kind_lists_full_replace (.selfBodied [classA]) functionsOnlySnapshot).1
        rfl rfl
    refine ⟨c', hok, h1 rfl, ?_⟩
    rw [h6 [gDeclareStructure] rfl]
    decide
  · exact (set_kind_lists_full_replace (.bodied [classA]) bodyOnlySnapshot).2
      [rawBodyStmt] (by decide) rfl

end StatementedNode
